import Mathlib

set_option maxRecDepth 8000

/-!
# Verification of the Template Materializer specification

The repository ships a project skeleton (three template files under
`templates/projects/python-fastapi/skeleton/`) together with a design
specification of a Template Materializer: a transform that takes an ordered
TemplateSet of (relative path, byte content) pairs and a SubstitutionMap from
token name to replacement string, and replaces every delimited token marker
(written with doubled braces around a name) by its bound value.

The materializer itself is not among the shipped source files (only the
template payload is), so the transform below is modelled from the spec; the
three template files are embedded byte-for-byte from the source tree.
-/

/-- Error taxonomy of the materializer.
Modelled from the spec: fails with UnresolvedTokenError naming the missing
token and file when a referenced token has no binding; fails with
MalformedTokenError when a token marker is opened but never closed. -/
inductive MatErr where
  | unresolved (token : String) (file : String)
  | malformed (file : String)
deriving DecidableEq, Repr

/-- A SubstitutionMap: a mapping from token name to replacement string. -/
def SubMap := List (String × String)

/-- Lookup of a token name in a SubstitutionMap (first binding wins). -/
def lookupVal (m : SubMap) (k : String) : Option String :=
  match m with
  | [] => none
  | (k', v) :: rest => if k' = k then some v else lookupVal rest k

/-- Modelled from the spec: the scanning core of the Template Materializer,
which is absent from the shipped sources.  Scans content for token markers
(an opening doubled brace, a name, a closing doubled brace) and replaces each
marker with its bound value verbatim — a replacement value is never itself
re-scanned for tokens.  The flag is true while inside a marker, with `acc`
the name read so far.  Aborts with `unresolved` when a scanned token has no
binding and with `malformed` when a marker is opened but never closed. -/
def scanAux (file : String) (m : SubMap) :
    Bool → List Char → List Char → Except MatErr (List Char)
  | false, _, [] => .ok []
  | false, _, '\x7b' :: '\x7b' :: rest => scanAux file m true [] rest
  | false, a, c :: rest => (scanAux file m false a rest).map (fun t => c :: t)
  | true, acc, '\x7d' :: '\x7d' :: rest =>
      match lookupVal m (String.mk acc) with
      | none => .error (.unresolved (String.mk acc) file)
      | some v => (scanAux file m false [] rest).map (fun t => v.data ++ t)
  | true, acc, c :: rest => scanAux file m true (acc ++ [c]) rest
  | true, _, [] => .error (.malformed file)

/-- Modelled from the spec: materialize one file's content with the map. -/
def substFile (file : String) (m : SubMap) (content : String) :
    Except MatErr (List Char) :=
  scanAux file m false [] content.data

/-- `true` iff the char list contains an occurrence of the opening token
delimiter (two consecutive opening braces). -/
def hasMarker : List Char → Bool
  | '\x7b' :: '\x7b' :: _ => true
  | _ :: rest => hasMarker rest
  | [] => false

example : substFile "f" [("name", "VAL")] "a\x7b\x7bname\x7d\x7db" = .ok "aVALb".data := rfl
example : substFile "f" [] "a\x7b\x7bname\x7d\x7db" = .error (.unresolved "name" "f") := rfl
example : substFile "f" [] "a\x7b\x7bname" = .error (.malformed "f") := rfl
example : hasMarker "ab\x7b\x7bc".data = true := rfl
example : hasMarker "ab\x7bc\x7d\x7d".data = false := rfl

/-! ## The TemplateSet: the three skeleton files, embedded byte-for-byte.
`configPy` is `app/config.py`, `mainPy` is `app/main.py`, `healthPy` is
`app/routes/health.py`; braces are written with hex escapes. -/

def configPy : String :=
  "\"\"\"\n"
  ++ "Application configuration using Pydantic Settings.\n"
  ++ "\"\"\"\n"
  ++ "\n"
  ++ "from pydantic_settings import BaseSettings, SettingsConfigDict\n"
  ++ "\n"
  ++ "\n"
  ++ "class Settings(BaseSettings):\n"
  ++ "    \"\"\"Application settings from environment variables.\"\"\"\n"
  ++ "\n"
  ++ "    model_config = SettingsConfigDict(\n"
  ++ "        env_file=\".env\",\n"
  ++ "        env_file_encoding=\"utf-8\",\n"
  ++ "        case_sensitive=False,\n"
  ++ "    )\n"
  ++ "\n"
  ++ "    # Application\n"
  ++ "    app_name: str = \"\x7b\x7bprojectName\x7d\x7d\"\n"
  ++ "    version: str = \"0.1.0\"\n"
  ++ "    debug: bool = False\n"
  ++ "\n"
  ++ "    # Server\n"
  ++ "    host: str = \"0.0.0.0\"\n"
  ++ "    port: int = \x7b\x7bport\x7d\x7d\n"
  ++ "\n"
  ++ "    # CORS\n"
  ++ "    cors_origins: list[str] = [\"*\"]\n"
  ++ "\n"
  ++ "    # Database (optional)\n"
  ++ "    database_url: str | None = None\n"
  ++ "\n"
  ++ "\n"
  ++ "settings = Settings()\n"
  ++ "\n"

def mainPy : String :=
  "\"\"\"\n"
  ++ "\x7b\x7bprojectName\x7d\x7d - \x7b\x7bdescription\x7d\x7d\n"
  ++ "FastAPI application entry point\n"
  ++ "\"\"\"\n"
  ++ "\n"
  ++ "from contextlib import asynccontextmanager\n"
  ++ "\n"
  ++ "from fastapi import FastAPI\n"
  ++ "from fastapi.middleware.cors import CORSMiddleware\n"
  ++ "\n"
  ++ "from .config import settings\n"
  ++ "from .routes.health import router as health_router\n"
  ++ "\n"
  ++ "\n"
  ++ "@asynccontextmanager\n"
  ++ "async def lifespan(app: FastAPI):\n"
  ++ "    \"\"\"Application lifespan events.\"\"\"\n"
  ++ "    # Startup\n"
  ++ "    print(f\"Starting \x7bsettings.app_name\x7d v\x7bsettings.version\x7d\")\n"
  ++ "    yield\n"
  ++ "    # Shutdown\n"
  ++ "    print(\"Shutting down...\")\n"
  ++ "\n"
  ++ "\n"
  ++ "app = FastAPI(\n"
  ++ "    title=\"\x7b\x7bprojectName\x7d\x7d\",\n"
  ++ "    description=\"\x7b\x7bdescription\x7d\x7d\",\n"
  ++ "    version=\"0.1.0\",\n"
  ++ "    lifespan=lifespan,\n"
  ++ ")\n"
  ++ "\n"
  ++ "# Middleware\n"
  ++ "app.add_middleware(\n"
  ++ "    CORSMiddleware,\n"
  ++ "    allow_origins=settings.cors_origins,\n"
  ++ "    allow_credentials=True,\n"
  ++ "    allow_methods=[\"*\"],\n"
  ++ "    allow_headers=[\"*\"],\n"
  ++ ")\n"
  ++ "\n"
  ++ "# Routers\n"
  ++ "app.include_router(health_router, prefix=\"/api\", tags=[\"health\"])\n"
  ++ "\n"
  ++ "\n"
  ++ "@app.get(\"/\")\n"
  ++ "async def root():\n"
  ++ "    \"\"\"Root endpoint.\"\"\"\n"
  ++ "    return \x7b\"message\": f\"Welcome to \x7b\x7bprojectName\x7d\x7d!\", \"docs\": \"/docs\"\x7d\n"
  ++ "\n"
  ++ "\n"
  ++ "if __name__ == \"__main__\":\n"
  ++ "    import uvicorn\n"
  ++ "\n"
  ++ "    uvicorn.run(\n"
  ++ "        \"app.main:app\",\n"
  ++ "        host=\"0.0.0.0\",\n"
  ++ "        port=settings.port,\n"
  ++ "        reload=settings.debug,\n"
  ++ "    )\n"
  ++ "\n"

def healthPy : String :=
  "\"\"\"Health check routes.\"\"\"\n"
  ++ "\n"
  ++ "from datetime import datetime\n"
  ++ "from typing import Literal\n"
  ++ "\n"
  ++ "from fastapi import APIRouter\n"
  ++ "from pydantic import BaseModel\n"
  ++ "\n"
  ++ "\n"
  ++ "class HealthResponse(BaseModel):\n"
  ++ "    \"\"\"Health check response.\"\"\"\n"
  ++ "\n"
  ++ "    status: Literal[\"ok\", \"degraded\", \"unhealthy\"]\n"
  ++ "    timestamp: datetime\n"
  ++ "    version: str\n"
  ++ "\n"
  ++ "\n"
  ++ "class ReadyResponse(BaseModel):\n"
  ++ "    \"\"\"Readiness check response.\"\"\"\n"
  ++ "\n"
  ++ "    ready: bool\n"
  ++ "\n"
  ++ "\n"
  ++ "router = APIRouter()\n"
  ++ "\n"
  ++ "\n"
  ++ "@router.get(\"/health\", response_model=HealthResponse)\n"
  ++ "async def health() -> HealthResponse:\n"
  ++ "    \"\"\"Health check endpoint.\"\"\"\n"
  ++ "    return HealthResponse(\n"
  ++ "        status=\"ok\",\n"
  ++ "        timestamp=datetime.now(),\n"
  ++ "        version=\"0.1.0\",\n"
  ++ "    )\n"
  ++ "\n"
  ++ "\n"
  ++ "@router.get(\"/ready\", response_model=ReadyResponse)\n"
  ++ "async def ready() -> ReadyResponse:\n"
  ++ "    \"\"\"Readiness check endpoint.\"\"\"\n"
  ++ "    # Add dependency checks here (database, cache, etc.)\n"
  ++ "    return ReadyResponse(ready=True)\n"
  ++ "\n"
  ++ "\n"
  ++ "@router.get(\"/live\")\n"
  ++ "async def live() -> dict:\n"
  ++ "    \"\"\"Liveness check endpoint.\"\"\"\n"
  ++ "    return \x7b\"alive\": True\x7d"

/-- The TemplateSet: an ordered collection of (relative path, content) pairs
representing the skeleton tree. -/
def templateSet : List (String × String) :=
  [("app/config.py", configPy),
   ("app/main.py", mainPy),
   ("app/routes/health.py", healthPy)]

/-- Modelled from the spec: the whole materialization, file by file in order,
aborting at the first error.  Each file's output path is token-substituted
the same way as its content (a no-op here: the paths of this TemplateSet
contain no markers, which is proved below), and the output tree is the list
of (path, content) pairs. -/
def matFiles (m : SubMap) : List (String × String) → Except MatErr (List (String × List Char))
  | [] => .ok []
  | (p, c) :: rest =>
      match substFile p m p with
      | .error e => .error e
      | .ok pout =>
          match substFile p m c with
          | .error e => .error e
          | .ok out =>
              match matFiles m rest with
              | .error e => .error e
              | .ok outs => .ok ((String.mk pout, out) :: outs)

/-- Modelled from the spec: materialize the repository TemplateSet with a
SubstitutionMap. -/
def materialize (m : SubMap) : Except MatErr (List (String × List Char)) :=
  matFiles m templateSet

/-! ## Segment view of template content
A template file is an alternation of literal chunks and token markers.  The
segment lists below are proved (by `decide`) to flatten back to the embedded
file contents, and a generic lemma identifies the scanner on flattened
segments with a direct renderer, enabling proofs for arbitrary maps. -/

/-- One segment of template content: a literal chunk or a token marker. -/
inductive Seg where
  | lit (s : String)
  | tok (name : String)
deriving DecidableEq, Repr

/-- The char content a segment list denotes: literals verbatim, token names
wrapped in doubled-brace delimiters. -/
def flattenSegs : List Seg → List Char
  | [] => []
  | .lit s :: rest => s.data ++ flattenSegs rest
  | .tok n :: rest => '\x7b' :: '\x7b' :: (n.data ++ ('\x7d' :: '\x7d' :: flattenSegs rest))

/-- Direct renderer of a segment list under a map: the intended meaning of
materializing one file. -/
def render (file : String) (m : SubMap) : List Seg → Except MatErr (List Char)
  | [] => .ok []
  | .lit s :: rest => (render file m rest).map (fun t => s.data ++ t)
  | .tok n :: rest =>
      match lookupVal m n with
      | none => .error (.unresolved n file)
      | some v => (render file m rest).map (fun t => v.data ++ t)

/-- `true` iff the char list ends in an opening brace (tail-recursive). -/
def endsBrace : List Char → Bool
  | [] => false
  | [c] => c == '\x7b'
  | _ :: rest => endsBrace rest

/-- A literal chunk is scanner-safe: no doubled-brace opener inside, and it
does not end in an opening brace (so no opener forms across a boundary). -/
def litOk (s : String) : Bool :=
  !hasMarker s.data && !endsBrace s.data

/-- A token name is scanner-safe: no brace characters. -/
def nameOk (n : String) : Bool :=
  n.data.all fun c => !(c = '\x7b') && !(c = '\x7d')

/-- All segments of a list are scanner-safe. -/
def segsOk : List Seg → Bool
  | [] => true
  | .lit s :: rest => litOk s && segsOk rest
  | .tok n :: rest => nameOk n && segsOk rest

/-- Literal chunk 1 of `app/config.py` (between token markers). -/
def cLit1 : String :=
  "\"\"\"\n"
  ++ "Application configuration using Pydantic Settings.\n"
  ++ "\"\"\"\n"
  ++ "\n"
  ++ "from pydantic_settings import BaseSettings, SettingsConfigDict\n"
  ++ "\n"
  ++ "\n"
  ++ "class Settings(BaseSettings):\n"
  ++ "    \"\"\"Application settings from environment variables.\"\"\"\n"
  ++ "\n"
  ++ "    model_config = SettingsConfigDict(\n"
  ++ "        env_file=\".env\",\n"
  ++ "        env_file_encoding=\"utf-8\",\n"
  ++ "        case_sensitive=False,\n"
  ++ "    )\n"
  ++ "\n"
  ++ "    # Application\n"
  ++ "    app_name: str = \""

/-- Literal chunk 2 of `app/config.py` (between token markers). -/
def cLit2 : String :=
  "\"\n"
  ++ "    version: str = \"0.1.0\"\n"
  ++ "    debug: bool = False\n"
  ++ "\n"
  ++ "    # Server\n"
  ++ "    host: str = \"0.0.0.0\"\n"
  ++ "    port: int = "

/-- Literal chunk 3 of `app/config.py` (between token markers). -/
def cLit3 : String :=
  "\n"
  ++ "\n"
  ++ "    # CORS\n"
  ++ "    cors_origins: list[str] = [\"*\"]\n"
  ++ "\n"
  ++ "    # Database (optional)\n"
  ++ "    database_url: str | None = None\n"
  ++ "\n"
  ++ "\n"
  ++ "settings = Settings()\n"
  ++ "\n"

/-- Segment decomposition of `app/config.py`: proved below to flatten back to the embedded content. -/
def configSegs : List Seg :=
  [.lit cLit1,
   .tok "projectName",
   .lit cLit2,
   .tok "port",
   .lit cLit3]

/-- Literal chunk 1 of `app/main.py` (between token markers). -/
def mLit1 : String :=
  "\"\"\"\n"

/-- Literal chunk 2 of `app/main.py` (between token markers). -/
def mLit2 : String :=
  " - "

/-- Literal chunk 3 of `app/main.py` (between token markers). -/
def mLit3 : String :=
  "\n"
  ++ "FastAPI application entry point\n"
  ++ "\"\"\"\n"
  ++ "\n"
  ++ "from contextlib import asynccontextmanager\n"
  ++ "\n"
  ++ "from fastapi import FastAPI\n"
  ++ "from fastapi.middleware.cors import CORSMiddleware\n"
  ++ "\n"
  ++ "from .config import settings\n"
  ++ "from .routes.health import router as health_router\n"
  ++ "\n"
  ++ "\n"
  ++ "@asynccontextmanager\n"
  ++ "async def lifespan(app: FastAPI):\n"
  ++ "    \"\"\"Application lifespan events.\"\"\"\n"
  ++ "    # Startup\n"
  ++ "    print(f\"Starting \x7bsettings.app_name\x7d v\x7bsettings.version\x7d\")\n"
  ++ "    yield\n"
  ++ "    # Shutdown\n"
  ++ "    print(\"Shutting down...\")\n"
  ++ "\n"
  ++ "\n"
  ++ "app = FastAPI(\n"
  ++ "    title=\""

/-- Literal chunk 4 of `app/main.py` (between token markers). -/
def mLit4 : String :=
  "\",\n"
  ++ "    description=\""

/-- Literal chunk 5 of `app/main.py` (between token markers). -/
def mLit5 : String :=
  "\",\n"
  ++ "    version=\"0.1.0\",\n"
  ++ "    lifespan=lifespan,\n"
  ++ ")\n"
  ++ "\n"
  ++ "# Middleware\n"
  ++ "app.add_middleware(\n"
  ++ "    CORSMiddleware,\n"
  ++ "    allow_origins=settings.cors_origins,\n"
  ++ "    allow_credentials=True,\n"
  ++ "    allow_methods=[\"*\"],\n"
  ++ "    allow_headers=[\"*\"],\n"
  ++ ")\n"
  ++ "\n"
  ++ "# Routers\n"
  ++ "app.include_router(health_router, prefix=\"/api\", tags=[\"health\"])\n"
  ++ "\n"
  ++ "\n"
  ++ "@app.get(\"/\")\n"
  ++ "async def root():\n"
  ++ "    \"\"\"Root endpoint.\"\"\"\n"
  ++ "    return \x7b\"message\": f\"Welcome to "

/-- Literal chunk 6 of `app/main.py` (between token markers). -/
def mLit6 : String :=
  "!\", \"docs\": \"/docs\"\x7d\n"
  ++ "\n"
  ++ "\n"
  ++ "if __name__ == \"__main__\":\n"
  ++ "    import uvicorn\n"
  ++ "\n"
  ++ "    uvicorn.run(\n"
  ++ "        \"app.main:app\",\n"
  ++ "        host=\"0.0.0.0\",\n"
  ++ "        port=settings.port,\n"
  ++ "        reload=settings.debug,\n"
  ++ "    )\n"
  ++ "\n"

/-- Segment decomposition of `app/main.py`: proved below to flatten back to the embedded content. -/
def mainSegs : List Seg :=
  [.lit mLit1,
   .tok "projectName",
   .lit mLit2,
   .tok "description",
   .lit mLit3,
   .tok "projectName",
   .lit mLit4,
   .tok "description",
   .lit mLit5,
   .tok "projectName",
   .lit mLit6]

/-- Segment decomposition of `app/routes/health.py`: a single literal chunk, no tokens. -/
def healthSegs : List Seg :=
  [.lit healthPy]

/-! ## Generic scanner lemmas -/

/-- Tail-recursive equality test on char lists; used to settle large concrete
equalities without deep recursion. -/
def eqChars : List Char → List Char → Bool
  | [], [] => true
  | a :: as, b :: bs => a == b && eqChars as bs
  | _, _ => false

theorem eqChars_sound : ∀ a b, eqChars a b = true → a = b
  | [], [], _ => rfl
  | a :: as, b :: bs, h => by
      rw [eqChars] at h
      rw [eq_of_beq (Bool.and_elim_left h), eqChars_sound as bs (Bool.and_elim_right h)]
  | [], _ :: _, h => by simp [eqChars] at h
  | _ :: _, [], h => by simp [eqChars] at h

theorem except_map_map {α β γ ε : Type} (f : β → γ) (g : α → β) (e : Except ε α) :
    Except.map f (Except.map g e) = Except.map (fun x => f (g x)) e := by
  cases e <;> rfl

theorem hasMarker_tail (c : Char) (cs : List Char) (h : hasMarker (c :: cs) = false) :
    hasMarker cs = false := by
  rcases cs with _ | ⟨c2, cs'⟩
  · rfl
  · by_cases hc : c = '\x7b' ∧ c2 = '\x7b'
    · rw [hc.1, hc.2, hasMarker.eq_1] at h
      exact absurd h (by simp)
    · rw [hasMarker.eq_2 c (c2 :: cs')] at h
      · exact h
      · intro tail h1 h2
        exact hc ⟨h1, (List.cons.inj h2).1⟩

theorem endsBrace_cons_imp (c : Char) (cs : List Char) (h : endsBrace cs = true) :
    endsBrace (c :: cs) = true := by
  rcases cs with _ | ⟨c2, cs'⟩
  · rw [endsBrace.eq_1] at h
    exact absurd h (by simp)
  · rw [endsBrace.eq_3 c (c2 :: cs') (fun hn => List.noConfusion hn)]
    exact h

/-- Scanning a marker-free literal chunk passes it through unchanged, provided
no marker opener forms at the boundary with the remaining input. -/
theorem scan_lit (f : String) (m : SubMap) (rest : List Char) :
    ∀ cs a : List Char, hasMarker cs = false →
      (endsBrace cs = true → rest.head? ≠ some '\x7b') →
      scanAux f m false a (cs ++ rest) =
        Except.map (fun t => cs ++ t) (scanAux f m false a rest) := by
  intro cs
  induction cs with
  | nil =>
      intro a _ _
      cases h : scanAux f m false a rest <;> simp [Except.map, h]
  | cons c cs ih =>
      intro a h1 h2
      rw [List.cons_append]
      rw [scanAux.eq_3 f m a c (cs ++ rest) ?guard]
      case guard =>
        intro r1 hc hr
        rcases hcs : cs with _ | ⟨c2, cs'⟩
        · subst hcs
          rw [List.nil_append] at hr
          exact h2 (by rw [endsBrace.eq_2, hc]; rfl) (by rw [hr]; rfl)
        · subst hcs
          have hc2 : c2 = '\x7b' := by
            have hh := congrArg List.head? hr
            simpa using hh
          rw [hc, hc2, hasMarker.eq_1] at h1
          exact absurd h1 (by simp)
      rw [ih a (hasMarker_tail c cs h1) (fun hEnd => h2 (endsBrace_cons_imp c cs hEnd)),
        except_map_map]
      rfl

/-- Scanning a brace-free token name up to the closing delimiter resolves the
token against the map. -/
theorem scan_tok (f : String) (m : SubMap) (rest : List Char) :
    ∀ n acc : List Char, (∀ c ∈ n, c ≠ '\x7d') →
      scanAux f m true acc (n ++ '\x7d' :: '\x7d' :: rest) =
        (match lookupVal m (String.mk (acc ++ n)) with
         | none => Except.error (MatErr.unresolved (String.mk (acc ++ n)) f)
         | some v => Except.map (fun t => v.data ++ t) (scanAux f m false [] rest)) := by
  intro n
  induction n with
  | nil =>
      intro acc _
      rw [List.nil_append, List.append_nil]
      exact scanAux.eq_4 f m acc rest
  | cons c n ih =>
      intro acc h
      rw [List.cons_append]
      rw [scanAux.eq_5 f m acc c (n ++ '\x7d' :: '\x7d' :: rest) ?guard]
      case guard =>
        intro r1 hc _
        exact h c (List.mem_cons_self c n) hc
      rw [ih (acc ++ [c]) (fun x hx => h x (List.mem_cons_of_mem c hx))]
      have hap : (acc ++ [c]) ++ n = acc ++ c :: n := by
        rw [List.append_assoc]
        rfl
      rw [hap]

/-- The scanner agrees with the direct renderer on any flattened safe
segment list. -/
theorem scan_segs (f : String) (m : SubMap) :
    ∀ segs : List Seg, segsOk segs = true →
      scanAux f m false [] (flattenSegs segs) = render f m segs := by
  intro segs
  induction segs with
  | nil => intro _; rfl
  | cons sg rest ih =>
      intro hok
      cases sg with
      | lit s =>
          rw [segsOk.eq_2, Bool.and_eq_true] at hok
          have h1 := hok.1
          rw [litOk, Bool.and_eq_true, Bool.not_eq_true', Bool.not_eq_true'] at h1
          rw [flattenSegs.eq_2, render.eq_2, ← ih hok.2]
          refine scan_lit f m (flattenSegs rest) s.data [] h1.1 ?_
          intro hEnd
          rw [h1.2] at hEnd
          exact absurd hEnd (by simp)
      | tok n =>
          rw [segsOk.eq_3, Bool.and_eq_true] at hok
          have h1 := hok.1
          simp only [nameOk, List.all_eq_true, Bool.and_eq_true, Bool.not_eq_true',
            decide_eq_false_iff_not] at h1
          rw [flattenSegs.eq_3, scanAux.eq_2, render.eq_3]
          have hTok := scan_tok f m (flattenSegs rest) n.data []
            (fun c hc => (h1 c hc).2)
          rw [List.nil_append] at hTok
          rw [hTok]
          have hmk : String.mk n.data = n := rfl
          rw [hmk]
          cases hlk : lookupVal m n with
          | none => rfl
          | some v => rw [ih hok.2]

/-! ## The repository TemplateSet through the segment view -/

theorem segsOk_config : segsOk configSegs = true := rfl

theorem segsOk_main : segsOk mainSegs = true := rfl

theorem segsOk_health : segsOk healthSegs = true := rfl

theorem flatten_config : flattenSegs configSegs = configPy.data := eqChars_sound _ _ rfl

theorem flatten_main : flattenSegs mainSegs = mainPy.data := eqChars_sound _ _ rfl

theorem flatten_health : flattenSegs healthSegs = healthPy.data := eqChars_sound _ _ rfl

theorem substFile_config (m : SubMap) :
    substFile "app/config.py" m configPy = render "app/config.py" m configSegs := by
  have h := scan_segs "app/config.py" m configSegs segsOk_config
  rw [flatten_config] at h
  exact h

theorem substFile_main (m : SubMap) :
    substFile "app/main.py" m mainPy = render "app/main.py" m mainSegs := by
  have h := scan_segs "app/main.py" m mainSegs segsOk_main
  rw [flatten_main] at h
  exact h

theorem substFile_health (m : SubMap) :
    substFile "app/routes/health.py" m healthPy =
      render "app/routes/health.py" m healthSegs := by
  have h := scan_segs "app/routes/health.py" m healthSegs segsOk_health
  rw [flatten_health] at h
  exact h

/-- Marker-free content passes through the scanner unchanged, under any
SubstitutionMap. -/
theorem scan_noMarker (f : String) (m : SubMap) (cs : List Char)
    (h : hasMarker cs = false) : scanAux f m false [] cs = Except.ok cs := by
  have hlit := scan_lit f m [] cs [] h (fun _ => by simp)
  rw [List.append_nil] at hlit
  rw [hlit, scanAux.eq_1]
  simp [Except.map]

theorem str_eta (s : String) : String.mk s.data = s := rfl

/-- The paths of the TemplateSet contain no token markers, so path
substitution is the identity on them, under any SubstitutionMap. -/
theorem substFile_path (m : SubMap) (p : String) (h : hasMarker p.data = false) :
    substFile p m p = Except.ok p.data :=
  scan_noMarker p m p.data h

/-- Content of the materialized `app/config.py`: the literal chunks of the
template with the two token values spliced in. -/
def configOut (vp vport : String) : List Char :=
  cLit1.data ++ vp.data ++ cLit2.data ++ vport.data ++ cLit3.data

/-- Content of the materialized `app/main.py`: the literal chunks of the
template with the five token occurrences spliced in. -/
def mainOut (vp vd : String) : List Char :=
  mLit1.data ++ vp.data ++ mLit2.data ++ vd.data ++ mLit3.data ++ vp.data ++
    mLit4.data ++ vd.data ++ mLit5.data ++ vp.data ++ mLit6.data

/-- Closed form of `materialize`: the referenced tokens are looked up in
template order, and on success every file is the interleaving of its literal
chunks with the bound values. -/
def matResult (m : SubMap) : Except MatErr (List (String × List Char)) :=
  match lookupVal m "projectName" with
  | none => .error (.unresolved "projectName" "app/config.py")
  | some vp =>
    match lookupVal m "port" with
    | none => .error (.unresolved "port" "app/config.py")
    | some vport =>
      match lookupVal m "description" with
      | none => .error (.unresolved "description" "app/main.py")
      | some vd =>
        .ok [("app/config.py", configOut vp vport),
             ("app/main.py", mainOut vp vd),
             ("app/routes/health.py", healthPy.data)]

theorem materialize_eq (m : SubMap) : materialize m = matResult m := by
  simp only [materialize, templateSet, matFiles, substFile_config, substFile_main,
    substFile_health, substFile_path m "app/config.py" rfl,
    substFile_path m "app/main.py" rfl,
    substFile_path m "app/routes/health.py" rfl, str_eta]
  simp only [configSegs, mainSegs, healthSegs, render]
  cases hp : lookupVal m "projectName" with
  | none => simp only [matResult, hp, Except.map]
  | some vp =>
    cases hq : lookupVal m "port" with
    | none => simp only [matResult, hp, hq, Except.map]
    | some vport =>
      cases hd : lookupVal m "description" with
      | none => simp only [matResult, hp, hq, hd, Except.map]
      | some vd =>
        simp only [matResult, hp, hq, hd, Except.map, configOut, mainOut,
          List.append_nil, List.append_assoc]

/-! ## Marker freedom of materialized output -/

theorem hasMarker_append_false : ∀ a b : List Char, hasMarker a = false →
    hasMarker b = false → (endsBrace a = true → b.head? ≠ some '\x7b') →
    hasMarker (a ++ b) = false
  | [], b, _, hb, _ => hb
  | c :: a', b, ha, hb, hab => by
      rw [List.cons_append]
      have hguard : ¬(c = '\x7b' ∧ (a' ++ b).head? = some '\x7b') := by
        rintro ⟨hc, hh⟩
        rcases ha' : a' with _ | ⟨c2, a''⟩
        · subst ha'
          rw [List.nil_append] at hh
          exact hab (by rw [endsBrace.eq_2, hc]; rfl) hh
        · subst ha'
          have hc2 : c2 = '\x7b' := by simpa using hh
          rw [hc, hc2, hasMarker.eq_1] at ha
          exact absurd ha (by simp)
      rw [hasMarker.eq_2 c (a' ++ b) (fun tail h1 h2 => hguard ⟨h1, by rw [h2]; rfl⟩)]
      exact hasMarker_append_false a' b (hasMarker_tail c a' ha) hb
        (fun hEnd => hab (endsBrace_cons_imp c a' hEnd))

theorem hasMarker_chunk_append (s : String) (b : List Char)
    (hs : hasMarker s.data = false) (he : endsBrace s.data = false)
    (hb : hasMarker b = false) : hasMarker (s.data ++ b) = false := by
  refine hasMarker_append_false s.data b hs hb ?_
  intro hEnd
  rw [he] at hEnd
  exact absurd hEnd (by simp)

theorem hasMarker_val_append (v : String) (b : List Char)
    (hv : hasMarker v.data = false) (hb : hasMarker b = false)
    (hhead : b.head? ≠ some '\x7b') : hasMarker (v.data ++ b) = false :=
  hasMarker_append_false v.data b hv hb (fun _ => hhead)

theorem head_append_of_head (a b : List Char) (c : Char) (h : a.head? = some c) :
    (a ++ b).head? = some c := by
  cases a with
  | nil => exact absurd h (by simp)
  | cons x xs =>
      rw [List.cons_append]
      simpa using h

theorem noMarker_configOut (vp vport : String)
    (h1 : hasMarker vp.data = false) (h2 : hasMarker vport.data = false) :
    hasMarker (configOut vp vport) = false := by
  rw [configOut, List.append_assoc, List.append_assoc, List.append_assoc]
  refine hasMarker_chunk_append cLit1 _ rfl rfl ?_
  refine hasMarker_val_append vp _ h1 ?_ ?_
  · refine hasMarker_chunk_append cLit2 _ rfl rfl ?_
    refine hasMarker_val_append vport _ h2 rfl ?_
    intro hcontra
    rw [show cLit3.data.head? = some '\x0a' from rfl] at hcontra
    exact absurd hcontra (by decide)
  · intro hcontra
    rw [head_append_of_head cLit2.data _ '\x22' rfl] at hcontra
    exact absurd hcontra (by decide)

theorem noMarker_mainOut (vp vd : String)
    (h1 : hasMarker vp.data = false) (h3 : hasMarker vd.data = false) :
    hasMarker (mainOut vp vd) = false := by
  rw [mainOut]
  simp only [List.append_assoc]
  refine hasMarker_chunk_append mLit1 _ rfl rfl ?_
  refine hasMarker_val_append vp _ h1 ?_ ?_
  · refine hasMarker_chunk_append mLit2 _ rfl rfl ?_
    refine hasMarker_val_append vd _ h3 ?_ ?_
    · refine hasMarker_chunk_append mLit3 _ rfl rfl ?_
      refine hasMarker_val_append vp _ h1 ?_ ?_
      · refine hasMarker_chunk_append mLit4 _ rfl rfl ?_
        refine hasMarker_val_append vd _ h3 ?_ ?_
        · refine hasMarker_chunk_append mLit5 _ rfl rfl ?_
          refine hasMarker_val_append vp _ h1 rfl ?_
          intro hcontra
          rw [show mLit6.data.head? = some '!' from rfl] at hcontra
          exact absurd hcontra (by decide)
        · intro hcontra
          rw [head_append_of_head mLit5.data _ '\x22' rfl] at hcontra
          exact absurd hcontra (by decide)
      · intro hcontra
        rw [head_append_of_head mLit4.data _ '\x22' rfl] at hcontra
        exact absurd hcontra (by decide)
    · intro hcontra
      rw [head_append_of_head mLit3.data _ '\x0a' rfl] at hcontra
      exact absurd hcontra (by decide)
  · intro hcontra
    rw [head_append_of_head mLit2.data _ '\x20' rfl] at hcontra
    exact absurd hcontra (by decide)

/-- A SubstitutionMap binding exactly the three tokens the TemplateSet
references. -/
def stdMap (vp vport vd : String) : SubMap :=
  [("projectName", vp), ("port", vport), ("description", vd)]

/-! ## Claim C1 -/

/-- The SubstitutionMap of the refutation of C1 as stated: it is complete (it
binds every referenced token), but the projectName value itself contains a
token marker, which survives verbatim because replacement values are never
re-scanned. -/
def cexMap : SubMap :=
  [("projectName", "\x7b\x7boops\x7d\x7d"), ("port", "8080"),
   ("description", "Orders service")]

/-- C1 counterexample: a complete SubstitutionMap for which materialization
succeeds yet a token marker occurs in the output. -/
theorem C1_counterexample :
    ∃ outs, materialize cexMap = Except.ok outs ∧
      (outs.any fun pc => hasMarker pc.2) = true := by
  refine ⟨_, (materialize_eq cexMap).trans rfl, ?_⟩
  rfl

/-- C1 (amended): for every complete SubstitutionMap whose replacement values
contain no token marker themselves, materializing the TemplateSet succeeds and
the output files contain zero occurrences of any token marker. -/
theorem C1_amended (vp vport vd : String)
    (h1 : hasMarker vp.data = false) (h2 : hasMarker vport.data = false)
    (h3 : hasMarker vd.data = false) :
    ∃ outs, materialize (stdMap vp vport vd) = Except.ok outs ∧
      ∀ pc ∈ outs, hasMarker pc.2 = false := by
  refine ⟨_, (materialize_eq _).trans rfl, ?_⟩
  intro pc hpc
  simp only [List.mem_cons, List.not_mem_nil, or_false] at hpc
  rcases hpc with h | h | h <;> subst h
  · exact noMarker_configOut vp vport h1 h2
  · exact noMarker_mainOut vp vd h1 h3
  · rfl

/-- Witness for C1_amended at concrete values. -/
theorem C1_amended_witness :
    ∃ outs, materialize (stdMap "orders-svc" "8080" "Orders service") =
        Except.ok outs ∧ ∀ pc ∈ outs, hasMarker pc.2 = false :=
  C1_amended "orders-svc" "8080" "Orders service" rfl rfl rfl

/-! ## Referenced tokens -/

/-- Token names referenced by template content, in scan order; the same
marker discipline as `scanAux`, collecting names instead of substituting. -/
def collectAux : Bool → List Char → List Char → List String
  | false, _, [] => []
  | false, _, '\x7b' :: '\x7b' :: rest => collectAux true [] rest
  | false, a, _ :: rest => collectAux false a rest
  | true, acc, '\x7d' :: '\x7d' :: rest => String.mk acc :: collectAux false [] rest
  | true, acc, c :: rest => collectAux true (acc ++ [c]) rest
  | true, _, [] => []

/-- The token names a file's content references. -/
def refTokensOf (content : String) : List String := collectAux false [] content.data

/-- First-occurrence-order deduplication. -/
def dedupFirst (seen : List String) : List String → List String
  | [] => []
  | s :: rest =>
      if seen.contains s then dedupFirst seen rest
      else s :: dedupFirst (s :: seen) rest

/-- All distinct token names referenced anywhere in the TemplateSet. -/
def allRefTokens : List String :=
  dedupFirst [] (refTokensOf configPy ++ (refTokensOf mainPy ++ refTokensOf healthPy))

theorem allRefTokens_eq : allRefTokens = ["projectName", "port", "description"] := rfl

/-! ## Claim C2 -/

/-- C2: materializing with an incomplete SubstitutionMap (one missing a
binding for some token referenced by the TemplateSet) fails with an
UnresolvedTokenError naming a token absent from the map and the offending
file; in particular, a map that binds projectName and description but omits
port fails with UnresolvedTokenError "port" "app/config.py". -/
theorem C2_unresolved (m : SubMap) :
    ((∃ t ∈ allRefTokens, lookupVal m t = none) →
      ∃ t f, materialize m = Except.error (MatErr.unresolved t f) ∧
        lookupVal m t = none ∧ t ∈ allRefTokens) ∧
    (lookupVal m "port" = none → (lookupVal m "projectName").isSome = true →
      (lookupVal m "description").isSome = true →
      materialize m = Except.error (MatErr.unresolved "port" "app/config.py")) := by
  constructor
  · intro hmiss
    rw [materialize_eq]
    simp only [matResult]
    cases hp : lookupVal m "projectName" with
    | none =>
        simp only [hp]
        exact ⟨"projectName", "app/config.py", rfl, hp, by rw [allRefTokens_eq]; simp⟩
    | some vp =>
        simp only [hp]
        cases hq : lookupVal m "port" with
        | none =>
            simp only [hq]
            exact ⟨"port", "app/config.py", rfl, hq, by rw [allRefTokens_eq]; simp⟩
        | some vport =>
            simp only [hq]
            cases hd : lookupVal m "description" with
            | none =>
                simp only [hd]
                exact ⟨"description", "app/main.py", rfl, hd, by rw [allRefTokens_eq]; simp⟩
            | some vd =>
                exfalso
                rcases hmiss with ⟨t, ht, hnone⟩
                rw [allRefTokens_eq] at ht
                simp only [List.mem_cons, List.not_mem_nil, or_false] at ht
                rcases ht with h | h | h <;> subst h
                · rw [hp] at hnone
                  exact Option.noConfusion hnone
                · rw [hq] at hnone
                  exact Option.noConfusion hnone
                · rw [hd] at hnone
                  exact Option.noConfusion hnone
  · intro hq hp hd
    rw [materialize_eq]
    simp only [matResult]
    cases hp' : lookupVal m "projectName" with
    | none =>
        rw [hp'] at hp
        exact absurd hp (by simp)
    | some vp =>
        simp only [hp', hq]

/-- The SubstitutionMap of the C2 scenario: binds projectName and description
but omits port. -/
def portlessMap : SubMap :=
  [("projectName", "orders-svc"), ("description", "Orders service")]

/-- Witness for C2_unresolved at the portless map. -/
theorem C2_unresolved_witness :
    (∃ t f, materialize portlessMap = Except.error (MatErr.unresolved t f) ∧
      lookupVal portlessMap t = none ∧ t ∈ allRefTokens) ∧
    materialize portlessMap = Except.error (MatErr.unresolved "port" "app/config.py") :=
  ⟨(C2_unresolved portlessMap).1 ⟨"port", by rw [allRefTokens_eq]; simp, rfl⟩,
   (C2_unresolved portlessMap).2 rfl rfl rfl⟩

/-! ## Substring occurrence -/

/-- `true` iff the first list is a leading segment of the second. -/
def listStarts : List Char → List Char → Bool
  | [], _ => true
  | _ :: _, [] => false
  | p :: ps, t :: ts => p == t && listStarts ps ts

/-- `true` iff `pat` occurs contiguously inside the char list. -/
def listHasSub (pat : List Char) : List Char → Bool
  | [] => pat.isEmpty
  | c :: rest => listStarts pat (c :: rest) || listHasSub pat rest

theorem listStarts_append : ∀ p t u : List Char,
    listStarts p t = true → listStarts p (t ++ u) = true
  | [], _, _, _ => rfl
  | _ :: _, [], _, h => by simp [listStarts] at h
  | p :: ps, t :: ts, u, h => by
      rw [listStarts, Bool.and_eq_true] at h
      rw [List.cons_append, listStarts, Bool.and_eq_true]
      exact ⟨h.1, listStarts_append ps ts u h.2⟩

theorem listHasSub_nil_pat : ∀ t : List Char, listHasSub [] t = true
  | [] => rfl
  | _ :: _ => rfl

theorem listHasSub_append_left : ∀ p a b : List Char,
    listHasSub p a = true → listHasSub p (a ++ b) = true
  | p, [], b, h => by
      rw [listHasSub] at h
      have hp : p = [] := by
        cases p
        · rfl
        · simp [List.isEmpty] at h
      subst hp
      exact listHasSub_nil_pat b
  | p, c :: a', b, h => by
      rw [listHasSub] at h
      rw [List.cons_append, listHasSub]
      cases h1 : listStarts p (c :: a') with
      | true =>
          have h2 := listStarts_append p (c :: a') b h1
          rw [List.cons_append] at h2
          rw [h2]
          rfl
      | false =>
          rw [h1] at h
          simp only [Bool.false_or] at h
          rw [listHasSub_append_left p a' b h]
          simp

theorem listHasSub_append_right : ∀ p a b : List Char,
    listHasSub p b = true → listHasSub p (a ++ b) = true
  | _, [], _, h => h
  | p, _ :: a', b, h => by
      rw [List.cons_append, listHasSub]
      rw [listHasSub_append_right p a' b h]
      simp

/-! ## Claim C3 -/

/-- The SubstitutionMap of the C3 scenario. -/
def s3 : SubMap := stdMap "orders-svc" "8080" "Orders service"

/-- C3: materializing with S = (projectName, orders-svc), (port, 8080),
(description, Orders service) produces an app/config.py whose content
contains the exact lines `app_name: str = "orders-svc"` and
`port: int = 8080`, each token replaced verbatim by its bound value. -/
theorem C3_exact_lines :
    ∃ outs, materialize s3 = Except.ok outs ∧
      ∃ c, outs.lookup "app/config.py" = some c ∧
        listHasSub "\n    app_name: str = \"orders-svc\"\n".data c = true ∧
        listHasSub "\n    port: int = 8080\n".data c = true := by
  refine ⟨_, (materialize_eq s3).trans rfl, ?_⟩
  exact ⟨configOut "orders-svc" "8080", rfl, rfl, rfl⟩

/-! ## Claim C4 -/

/-- C4: materialization preserves directory structure and file names; a file
with no token markers (app/routes/health.py) appears in the output
byte-for-byte identical to its template content; and on success every output
file is its template's literal chunks with the bound values spliced in, so
all bytes outside token spans are preserved exactly. -/
theorem C4_frame (m : SubMap) (outs : List (String × List Char))
    (h : materialize m = Except.ok outs) :
    outs.map Prod.fst = templateSet.map Prod.fst ∧
    ("app/routes/health.py", healthPy.data) ∈ outs ∧
    ∃ vp vport vd, lookupVal m "projectName" = some vp ∧
      lookupVal m "port" = some vport ∧ lookupVal m "description" = some vd ∧
      outs = [("app/config.py", configOut vp vport),
              ("app/main.py", mainOut vp vd),
              ("app/routes/health.py", healthPy.data)] := by
  rw [materialize_eq] at h
  simp only [matResult] at h
  cases hp : lookupVal m "projectName" with
  | none =>
      rw [hp] at h
      simp at h
  | some vp =>
    cases hq : lookupVal m "port" with
    | none =>
        rw [hp, hq] at h
        simp at h
    | some vport =>
      cases hd : lookupVal m "description" with
      | none =>
          rw [hp, hq, hd] at h
          simp at h
      | some vd =>
          rw [hp, hq, hd] at h
          simp only at h
          injection h with h'
          subst h'
          refine ⟨rfl, by simp, vp, vport, vd, rfl, rfl, rfl, rfl⟩

/-- The output tree of the C3/C4 scenario map. -/
def outs3 : List (String × List Char) :=
  [("app/config.py", configOut "orders-svc" "8080"),
   ("app/main.py", mainOut "orders-svc" "Orders service"),
   ("app/routes/health.py", healthPy.data)]

/-- Witness for C4_frame at the concrete scenario map. -/
theorem C4_frame_witness :
    outs3.map Prod.fst = templateSet.map Prod.fst ∧
    ("app/routes/health.py", healthPy.data) ∈ outs3 ∧
    ∃ vp vport vd, lookupVal s3 "projectName" = some vp ∧
      lookupVal s3 "port" = some vport ∧ lookupVal s3 "description" = some vd ∧
      outs3 = [("app/config.py", configOut vp vport),
               ("app/main.py", mainOut vp vd),
               ("app/routes/health.py", healthPy.data)] :=
  C4_frame s3 outs3 ((materialize_eq s3).trans rfl)

/-! ## Claim C5 -/

/-- Writing the output tree under a destination root. -/
def destTree (dest : String) (outs : List (String × List Char)) :
    List (String × List Char) :=
  outs.map fun pc => (dest ++ "/" ++ pc.1, pc.2)

/-- Modelled from the spec: materialize and write under a destination
directory; the destination only prefixes the output paths. -/
def materializeTo (dest : String) (m : SubMap) :
    Except MatErr (List (String × List Char)) :=
  (materialize m).map (destTree dest)

/-- C5: materializing the same TemplateSet with the same SubstitutionMap
twice, to two destinations, yields byte-identical output trees: both runs are
the same single materialization result written under the two roots, with
identical relative structure and contents. -/
theorem C5_idempotent (d1 d2 : String) (m : SubMap)
    (o1 o2 : List (String × List Char))
    (h1 : materializeTo d1 m = Except.ok o1)
    (h2 : materializeTo d2 m = Except.ok o2) :
    ∃ outs, materialize m = Except.ok outs ∧ o1 = destTree d1 outs ∧
      o2 = destTree d2 outs ∧ o1.map Prod.snd = o2.map Prod.snd := by
  rw [materializeTo] at h1 h2
  cases hm : materialize m with
  | error e =>
      rw [hm] at h1
      simp only [Except.map] at h1
      exact Except.noConfusion h1
  | ok outs =>
      rw [hm] at h1 h2
      simp only [Except.map] at h1 h2
      injection h1 with h1'
      injection h2 with h2'
      subst h1'
      subst h2'
      refine ⟨outs, rfl, rfl, rfl, ?_⟩
      simp [destTree, List.map_map, Function.comp]

/-- Witness for C5_idempotent: the scenario map written to two roots. -/
theorem C5_idempotent_witness :
    ∃ outs, materialize s3 = Except.ok outs ∧
      destTree "alpha" outs3 = destTree "alpha" outs ∧
      destTree "beta" outs3 = destTree "beta" outs ∧
      (destTree "alpha" outs3).map Prod.snd = (destTree "beta" outs3).map Prod.snd :=
  C5_idempotent "alpha" "beta" s3 (destTree "alpha" outs3) (destTree "beta" outs3)
    (by rw [materializeTo, materialize_eq]; rfl)
    (by rw [materializeTo, materialize_eq]; rfl)

/-! ## Claim C6: the health-check handlers of app/routes/health.py
The handler `health` fills its `timestamp` field with the current time
(datetime.now() at line 32); ambient time is modelled as an explicit
parameter to each handler. -/

/-- Response model of GET /api/health (app/routes/health.py lines 10-15);
the timestamp is modelled as a number. -/
structure HealthResponse where
  status : String
  timestamp : Nat
  version : String
deriving DecidableEq, Repr

/-- Response model of GET /api/ready (app/routes/health.py lines 18-21). -/
structure ReadyResponse where
  ready : Bool
deriving DecidableEq, Repr

/-- Handler of GET /api/health (app/routes/health.py lines 27-34). -/
def health (now : Nat) : HealthResponse :=
  { status := "ok", timestamp := now, version := "0.1.0" }

/-- Handler of GET /api/ready (app/routes/health.py lines 37-41). -/
def ready (_now : Nat) : ReadyResponse := { ready := true }

/-- Handler of GET /api/live (app/routes/health.py lines 44-47). -/
def live (_now : Nat) : List (String × Bool) := [("alive", true)]

/-- C6 counterexample: the GET /api/health handler is not static — its
response embeds the invocation time, so two invocations at different times
return different values. -/
theorem C6_counterexample : health 0 ≠ health 1 := by decide

/-- C6 (amended): GET /api/ready and GET /api/live return static payloads,
identical across invocations and independent of ambient state; GET
/api/health returns a static status and version but embeds the invocation
time as its timestamp. -/
theorem C6_amended (t1 t2 : Nat) :
    ready t1 = ready t2 ∧ live t1 = live t2 ∧
    (health t1).status = (health t2).status ∧
    (health t1).version = (health t2).version ∧
    (health t1).timestamp = t1 :=
  ⟨rfl, rfl, rfl, rfl, rfl⟩

/-! ## Claim C7: declared endpoints and settings of the skeleton -/

/-- Routes declared directly on the app object (app/main.py line 45). -/
def mainRoutes : List (String × String) := [("GET", "/")]

/-- Routes declared on the health router (app/routes/health.py
lines 27, 37, 44). -/
def healthRoutes : List (String × String) :=
  [("GET", "/health"), ("GET", "/ready"), ("GET", "/live")]

/-- Mount point of the health router (app/main.py line 42). -/
def healthMount : String := "/api"

/-- All HTTP endpoints the skeleton declares. -/
def appRoutes : List (String × String) :=
  mainRoutes ++ healthRoutes.map fun r => (r.1, healthMount ++ r.2)

/-- The fields of the Settings class (app/config.py lines 17-30); under
BaseSettings with case-insensitive env loading (lines 11-15) every field is
environment-configurable. -/
def settingsFieldNames : List String :=
  ["app_name", "version", "debug", "host", "port", "cors_origins",
   "database_url"]

/-- Environment variable name of a Settings field (case-insensitive per
model_config; conventionally uppercase). -/
def envNameOf (s : String) : String := String.mk (s.data.map Char.toUpper)

/-- The environment variable names the skeleton's settings respond to. -/
def settingsEnvNames : List String := settingsFieldNames.map envNameOf

/-- The five environment settings claim C7 lists. -/
def claimedEnvNames : List String :=
  ["HOST", "PORT", "DEBUG", "CORS_ORIGINS", "DATABASE_URL"]

/-- C7 counterexample: APP_NAME is an environment-configurable setting of the
skeleton (field app_name of the BaseSettings class) but is not among the five
the claim lists, so the claimed enumeration is not exact. -/
theorem C7_counterexample :
    "APP_NAME" ∈ settingsEnvNames ∧ "APP_NAME" ∉ claimedEnvNames := by
  constructor
  · decide
  · decide

/-- C7 (amended): the skeleton declares exactly the endpoints GET /,
GET /api/health, GET /api/ready, GET /api/live (the health router mounted
under /api); its environment-configurable settings are exactly the seven
Settings fields — the claim's five plus APP_NAME and VERSION; and the
materializer passes the skeleton through unchanged aside from token
substitution. -/
theorem C7_amended :
    appRoutes = [("GET", "/"), ("GET", "/api/health"), ("GET", "/api/ready"),
      ("GET", "/api/live")] ∧
    settingsEnvNames = ["APP_NAME", "VERSION", "DEBUG", "HOST", "PORT",
      "CORS_ORIGINS", "DATABASE_URL"] ∧
    claimedEnvNames ⊆ settingsEnvNames ∧
    ∀ vp vport vd : String, materialize (stdMap vp vport vd) =
      Except.ok [("app/config.py", configOut vp vport),
                 ("app/main.py", mainOut vp vd),
                 ("app/routes/health.py", healthPy.data)] := by
  refine ⟨by decide, by decide, by decide, ?_⟩
  intro vp vport vd
  exact (materialize_eq _).trans rfl

/-- Witness for C7_amended: HOST is among the skeleton's environment
settings, and the scenario map materializes to the decomposed output. -/
theorem C7_amended_witness :
    "HOST" ∈ settingsEnvNames ∧
    materialize (stdMap "orders-svc" "8080" "Orders service") =
      Except.ok [("app/config.py", configOut "orders-svc" "8080"),
                 ("app/main.py", mainOut "orders-svc" "Orders service"),
                 ("app/routes/health.py", healthPy.data)] :=
  ⟨C7_amended.2.2.1 (by decide), C7_amended.2.2.2 "orders-svc" "8080" "Orders service"⟩

/-! ## Claim C8: token occurrences by line -/

/-- 1-based indices of the lines containing `pat`. -/
def lineNumsAux (pat : List Char) : Nat → List (List Char) → List Nat
  | _, [] => []
  | i, l :: rest =>
      if listHasSub pat l then i :: lineNumsAux pat (i + 1) rest
      else lineNumsAux pat (i + 1) rest

/-- Split content into its lines (tail-recursive). -/
def splitLinesAux (cur : List Char) (acc : List (List Char)) :
    List Char → List (List Char)
  | [] => (cur.reverse :: acc).reverse
  | c :: rest =>
      if c = '\n' then splitLinesAux [] (cur.reverse :: acc) rest
      else splitLinesAux (c :: cur) acc rest

/-- 1-based numbers of the lines of `s` that contain `pat`. -/
def lineNumsWith (pat : String) (s : String) : List Nat :=
  lineNumsAux pat.data 1 (splitLinesAux [] [] s.data)

/-- C8: the TemplateSet references exactly the three distinct tokens
projectName (app/config.py line 18; app/main.py lines 2, 26 and 48), port
(app/config.py line 24) and description (app/main.py lines 2 and 27); no
token marker occurs in app/routes/health.py or in any file path; and a
SubstitutionMap binding exactly those three tokens is complete —
materialization succeeds with it. -/
theorem C8_token_inventory :
    allRefTokens = ["projectName", "port", "description"] ∧
    lineNumsWith "\x7b\x7bprojectName\x7d\x7d" configPy = [18] ∧
    lineNumsWith "\x7b\x7bport\x7d\x7d" configPy = [24] ∧
    lineNumsWith "\x7b\x7bdescription\x7d\x7d" configPy = [] ∧
    lineNumsWith "\x7b\x7bprojectName\x7d\x7d" mainPy = [2, 26, 48] ∧
    lineNumsWith "\x7b\x7bdescription\x7d\x7d" mainPy = [2, 27] ∧
    lineNumsWith "\x7b\x7bport\x7d\x7d" mainPy = [] ∧
    hasMarker healthPy.data = false ∧
    ((templateSet.map Prod.fst).all fun p => !hasMarker p.data) = true ∧
    ∀ vp vport vd : String, ∃ outs,
      materialize (stdMap vp vport vd) = Except.ok outs :=
  ⟨allRefTokens_eq, rfl, rfl, rfl, rfl, rfl, rfl, rfl, rfl,
   fun _ _ _ => ⟨_, (materialize_eq _).trans rfl⟩⟩

/-! ## Claim C9: marker well-formedness -/

/-- `true` iff every opening token delimiter in the content is closed before
the end of the file. -/
def wfAux : Bool → List Char → Bool
  | false, [] => true
  | false, '\x7b' :: '\x7b' :: rest => wfAux true rest
  | false, _ :: rest => wfAux false rest
  | true, '\x7d' :: '\x7d' :: rest => wfAux false rest
  | true, _ :: rest => wfAux true rest
  | true, [] => false

/-- Well-formedness of one file's template content. -/
def wellFormedContent (s : String) : Bool := wfAux false s.data

/-- `true` iff a materializer result is a MalformedTokenError. -/
def isMalformedResult : Except MatErr (List (String × List Char)) → Bool
  | .error (.malformed _) => true
  | _ => false

/-- C9: every token marker in the TemplateSet is well formed — every opening
delimiter is followed by a matching closing delimiter before end of file —
and consequently materialization never returns a MalformedTokenError, for
every SubstitutionMap. -/
theorem C9_wellformed :
    (templateSet.all fun pc => wellFormedContent pc.2) = true ∧
    ∀ m : SubMap, isMalformedResult (materialize m) = false := by
  refine ⟨rfl, ?_⟩
  intro m
  rw [materialize_eq]
  simp only [matResult]
  cases hp : lookupVal m "projectName" with
  | none => simp only [hp]; rfl
  | some vp =>
    cases hq : lookupVal m "port" with
    | none => simp only [hp, hq]; rfl
    | some vport =>
      cases hd : lookupVal m "description" with
      | none => simp only [hp, hq, hd]; rfl
      | some vd => simp only [hp, hq, hd]; rfl

/-! ## Claim C10: the hard-coded version literal -/

/-- C10: the version string "0.1.0" is a hard-coded literal, not a token: it
occurs (quoted) on exactly one line of each skeleton file (app/config.py
line 19, app/main.py line 28, app/routes/health.py line 33), it is not among
the referenced tokens, and every successful materialization's output still
contains it in every file, whatever the SubstitutionMap. -/
theorem C10_version :
    "0.1.0" ∉ allRefTokens ∧
    lineNumsWith "\"0.1.0\"" configPy = [19] ∧
    lineNumsWith "\"0.1.0\"" mainPy = [28] ∧
    lineNumsWith "\"0.1.0\"" healthPy = [33] ∧
    ∀ (m : SubMap) (outs : List (String × List Char)),
      materialize m = Except.ok outs →
      ∀ pc ∈ outs, listHasSub "\"0.1.0\"".data pc.2 = true := by
  refine ⟨by rw [allRefTokens_eq]; simp, rfl, rfl, rfl, ?_⟩
  intro m outs h pc hpc
  rw [materialize_eq] at h
  simp only [matResult] at h
  cases hp : lookupVal m "projectName" with
  | none =>
      rw [hp] at h
      simp at h
  | some vp =>
    cases hq : lookupVal m "port" with
    | none =>
        rw [hp, hq] at h
        simp at h
    | some vport =>
      cases hd : lookupVal m "description" with
      | none =>
          rw [hp, hq, hd] at h
          simp at h
      | some vd =>
          rw [hp, hq, hd] at h
          simp only at h
          injection h with h'
          subst h'
          simp only [List.mem_cons, List.not_mem_nil, or_false] at hpc
          rcases hpc with he | he | he <;> subst he
          · show listHasSub _ (configOut vp vport) = true
            rw [configOut]
            simp only [List.append_assoc]
            refine listHasSub_append_right _ _ _ ?_
            refine listHasSub_append_right _ _ _ ?_
            exact listHasSub_append_left _ _ _ rfl
          · show listHasSub _ (mainOut vp vd) = true
            rw [mainOut]
            simp only [List.append_assoc]
            refine listHasSub_append_right _ _ _ ?_
            refine listHasSub_append_right _ _ _ ?_
            refine listHasSub_append_right _ _ _ ?_
            refine listHasSub_append_right _ _ _ ?_
            refine listHasSub_append_right _ _ _ ?_
            refine listHasSub_append_right _ _ _ ?_
            refine listHasSub_append_right _ _ _ ?_
            refine listHasSub_append_right _ _ _ ?_
            exact listHasSub_append_left _ _ _ rfl
          · exact rfl

/-- Witness for the preservation part of C10_version, at the scenario map:
the materialized app/config.py still contains the quoted version literal. -/
theorem C10_version_witness :
    listHasSub "\"0.1.0\"".data (configOut "orders-svc" "8080") = true :=
  C10_version.2.2.2.2 s3 outs3 ((materialize_eq s3).trans rfl)
    ("app/config.py", configOut "orders-svc" "8080") (by simp [outs3])
